import Mathlib

/-!
Shallow embedding of the reconciliation matching engine of the
`cpreconcile` repository (`src/services/reconciliation.service.ts`),
together with proofs of the specification claims about it.

Conventions of the embedding:
* JavaScript numbers are modelled as `ℚ`; timestamps are epoch
  milliseconds as `ℚ` (the code only subtracts them and divides by
  `1000*60*60`).
* Nullable / possibly-undefined fields are `Option`; JavaScript string
  truthiness (`s && ...`) is modelled by `none` or the empty string both
  counting as falsy.
* The fixed-decimal rendering `toFixed(2)` inside two note strings is
  abstracted to `toString` of the rational; no claim depends on the
  formatting of those two strings.
* Effects of `reconcile` (run-log rows, saved reconciliation rows) are
  modelled as an explicit `DB` value; thrown exceptions are modelled by
  an `Option RunError` result together with injected failure points in
  the environment (`syncFails`, `scoreFailIndex`, `saveFailIndex`),
  mirroring the `try/catch` of `ReconciliationService.reconcile`.
-/

namespace CPReconcile

/-- `ReconciliationStatus` from `src/types/reconciliation.types.ts`. -/
inductive ReconciliationStatus
  | MATCHED
  | PARTIAL_MATCH
  | UNMATCHED
  | DISCREPANCY
  | UNDER_REVIEW
  | RESOLVED
deriving DecidableEq, Repr

/-- A local Shopify order row as read by `shopifyService.getLocalOrders`
(fields used by the matching engine). -/
structure ShopifyOrder where
  id : String
  shopifyOrderId : String
  shopifyOrderNumber : String
  email : Option String
  totalPrice : ℚ
  createdAt : ℚ
deriving DecidableEq, Repr

/-- A local Razorpay payment row as read by
`razorpayService.getLocalPayments` (fields used by the matching engine). -/
structure RazorpayPayment where
  id : String
  email : Option String
  amount : ℚ
  createdAt : ℚ
deriving DecidableEq, Repr

/-- A local Easyecom order row as read by
`easyecomService.getLocalOrders` (fields used by the matching engine). -/
structure EasyecomOrder where
  id : String
  marketplaceOrderId : Option String
  totalAmount : ℚ
  createdAt : ℚ
deriving DecidableEq, Repr

/-- The `MatchResult` interface of `reconciliation.service.ts`. -/
structure MatchResult where
  shopifyOrderId : Option String := none
  razorpayPaymentId : Option String := none
  easyecomOrderId : Option String := none
  matchConfidence : ℚ := 0
  status : ReconciliationStatus := .UNMATCHED
  amountDifference : Option ℚ := none
  discrepancyNotes : Option String := none
deriving DecidableEq, Repr

/-- JavaScript truthiness of a nullable string field (`s && ...`):
absent and empty strings are falsy. -/
def truthy : Option String → Bool
  | none => false
  | some s => s ≠ ""

/-- The per-candidate confidence computed inside the loop of
`ReconciliationService.matchRazorpayPayment`: email (case-insensitive,
weight 40), amount within 1% tolerance (weight 40), linear time decay
over 24 hours (weight 20). -/
def razorpayConfidence (o : ShopifyOrder) (p : RazorpayPayment) : ℚ :=
  let emailScore : ℚ :=
    match o.email, p.email with
    | some a, some b => if a ≠ "" ∧ b ≠ "" ∧ a.toLower = b.toLower then 40 else 0
    | _, _ => 0
  let amountDiff : ℚ := |o.totalPrice - p.amount|
  let amountTolerance : ℚ := o.totalPrice * (1 / 100)
  let amountScore : ℚ := if amountDiff ≤ amountTolerance then 40 else 0
  let hoursDiff : ℚ := |o.createdAt - p.createdAt| / (1000 * 60 * 60)
  let timeScore : ℚ := if hoursDiff ≤ 24 then 20 * (1 - hoursDiff / 24) else 0
  emailScore + amountScore + timeScore

/-- The per-candidate confidence computed inside the loop of
`ReconciliationService.matchEasyecomOrder`: marketplace order id equal
to the Shopify order id or order number (weight 60), amount within 1%
tolerance (weight 30), linear time decay over 48 hours (weight 10). -/
def easyecomConfidence (o : ShopifyOrder) (e : EasyecomOrder) : ℚ :=
  let refScore : ℚ :=
    match e.marketplaceOrderId with
    | some m =>
        if m ≠ "" ∧ (m = o.shopifyOrderId ∨ m = o.shopifyOrderNumber) then 60 else 0
    | none => 0
  let amountDiff : ℚ := |o.totalPrice - e.totalAmount|
  let amountTolerance : ℚ := o.totalPrice * (1 / 100)
  let amountScore : ℚ := if amountDiff ≤ amountTolerance then 30 else 0
  let hoursDiff : ℚ := |o.createdAt - e.createdAt| / (1000 * 60 * 60)
  let timeScore : ℚ := if hoursDiff ≤ 48 then 10 * (1 - hoursDiff / 48) else 0
  refScore + amountScore + timeScore

/-- The best-match selection loop shared by `matchRazorpayPayment` and
`matchEasyecomOrder`: start from `(null, 0)` and replace the current
best only when a candidate scores strictly higher. -/
def selectBest {α : Type} (score : α → ℚ) (cands : List α) : Option α × ℚ :=
  cands.foldl
    (fun best c =>
      let confidence := score c
      if best.2 < confidence then (some c, confidence) else best)
    (none, 0)

/-- `ReconciliationService.matchRazorpayPayment`. -/
def matchRazorpayPayment (o : ShopifyOrder) (ps : List RazorpayPayment) :
    Option RazorpayPayment × ℚ :=
  selectBest (razorpayConfidence o) ps

/-- `ReconciliationService.matchEasyecomOrder`. -/
def matchEasyecomOrder (o : ShopifyOrder) (es : List EasyecomOrder) :
    Option EasyecomOrder × ℚ :=
  selectBest (easyecomConfidence o) es

/-- The status cascade at the end of `ReconciliationService.findMatches`
(first matching rule wins). -/
def classifyStatus (conf diff : ℚ) : ReconciliationStatus :=
  if conf ≥ 80 ∧ diff < 1 then .MATCHED
  else if conf ≥ 50 ∧ diff < 10 then .PARTIAL_MATCH
  else if diff ≥ 10 then .DISCREPANCY
  else .UNMATCHED

/-- The notes assigned alongside the status cascade of `findMatches`
(`toFixed(2)` abstracted to `toString`). -/
def classifyNotes (conf diff : ℚ) : Option String :=
  if conf ≥ 80 ∧ diff < 1 then none
  else if conf ≥ 50 ∧ diff < 10 then
    some ("Partial match with " ++ toString diff ++ " amount difference")
  else if diff ≥ 10 then
    some ("Significant amount difference: " ++ toString diff)
  else some "Could not find confident matches"

/-- Maximum of a nonempty amount list, as `Math.max(...amounts)` with
`amounts = [shopifyOrder.totalPrice, ...]`. -/
def listMax (x : ℚ) (rest : List ℚ) : ℚ := rest.foldl max x

/-- Minimum of a nonempty amount list, as `Math.min(...amounts)`. -/
def listMin (x : ℚ) (rest : List ℚ) : ℚ := rest.foldl min x

/-- `ReconciliationService.findMatches`: select a best Razorpay payment
and a best Easyecom order, average the confidences of those found,
compute the max−min amount spread over the participating amounts, and
classify. -/
def findMatches (o : ShopifyOrder) (ps : List RazorpayPayment)
    (es : List EasyecomOrder) : MatchResult :=
  let razorpayMatch := matchRazorpayPayment o ps
  let easyecomMatch := matchEasyecomOrder o es
  let rawConfidence : ℚ :=
    (if razorpayMatch.1.isSome then razorpayMatch.2 else 0) +
      (if easyecomMatch.1.isSome then easyecomMatch.2 else 0)
  let matchCount : ℚ :=
    (if razorpayMatch.1.isSome then 1 else 0) +
      (if easyecomMatch.1.isSome then 1 else 0)
  let matchConfidence : ℚ :=
    if matchCount > 0 then rawConfidence / matchCount else rawConfidence
  let amounts : List ℚ :=
    (match razorpayMatch.1 with | some p => [p.amount] | none => []) ++
      (match easyecomMatch.1 with | some e => [e.totalAmount] | none => [])
  let amountDifference : ℚ :=
    listMax o.totalPrice amounts - listMin o.totalPrice amounts
  { shopifyOrderId := some o.id
    razorpayPaymentId := razorpayMatch.1.map (·.id)
    easyecomOrderId := easyecomMatch.1.map (·.id)
    matchConfidence := matchConfidence
    status := classifyStatus matchConfidence amountDifference
    amountDifference := some amountDifference
    discrepancyNotes := classifyNotes matchConfidence amountDifference }

/-- The orphan outcome pushed for a Razorpay payment whose id was not
referenced by any earlier outcome. -/
def razorpayOrphan (p : RazorpayPayment) : MatchResult :=
  { razorpayPaymentId := some p.id
    matchConfidence := 0
    status := .UNMATCHED
    discrepancyNotes := some "No matching Shopify order found" }

/-- The orphan outcome pushed for an Easyecom order whose id was not
referenced by any earlier outcome. -/
def easyecomOrphan (e : EasyecomOrder) : MatchResult :=
  { easyecomOrderId := some e.id
    matchConfidence := 0
    status := .UNMATCHED
    discrepancyNotes := some "No matching Shopify order found" }

/-- The matching phase of `ReconciliationService.reconcile` on already
loaded records: the primary loop over Shopify orders (appending one
outcome per order and counting matched / unmatched), then the orphan
loop over Razorpay payments, then the orphan loop over Easyecom orders.
Returns (outcome list, matchedCount, unmatchedCount). -/
def reconcileMatches (orders : List ShopifyOrder) (ps : List RazorpayPayment)
    (es : List EasyecomOrder) : List MatchResult × ℕ × ℕ :=
  let step := fun (acc : List MatchResult × ℕ × ℕ) (o : ShopifyOrder) =>
    let m := findMatches o ps es
    if m.status = ReconciliationStatus.MATCHED then
      (acc.1 ++ [m], acc.2.1 + 1, acc.2.2)
    else
      (acc.1 ++ [m], acc.2.1, acc.2.2 + 1)
  let afterPrimaries := orders.foldl step ([], 0, 0)
  let ms := afterPrimaries.1
  let matchedRazorpayIds := ms.filterMap (·.razorpayPaymentId)
  let stepR := fun (acc : List MatchResult × ℕ) (p : RazorpayPayment) =>
    if p.id ∈ matchedRazorpayIds then acc
    else (acc.1 ++ [razorpayOrphan p], acc.2 + 1)
  let afterRazorpay := ps.foldl stepR (ms, afterPrimaries.2.2)
  let matchedEasyecomIds := afterRazorpay.1.filterMap (·.easyecomOrderId)
  let stepE := fun (acc : List MatchResult × ℕ) (e : EasyecomOrder) =>
    if e.id ∈ matchedEasyecomIds then acc
    else (acc.1 ++ [easyecomOrphan e], acc.2 + 1)
  let afterEasyecom := es.foldl stepE afterRazorpay
  (afterEasyecom.1, afterPrimaries.2.1, afterEasyecom.2)

/-- Status of a `reconciliationLog` row. -/
inductive RunStatus
  | RUNNING
  | COMPLETED
  | FAILED
deriving DecidableEq, Repr

/-- The fields of a `reconciliationLog` row that the engine writes. -/
structure RunLog where
  status : RunStatus
  recordsProcessed : ℕ
  recordsMatched : ℕ
  recordsUnmatched : ℕ
deriving DecidableEq, Repr

/-- Errors a `reconcile` call can surface.  `syncFailure`,
`scoringFailure` and `saveFailure` model exceptions thrown by the
collaborators at the three phases of the `try` block.
`invalidRange` is taken from the specification's error taxonomy
(`InvalidRangeError`); it is a recognised error value so that claims
about it can be stated, the service code itself contains no such check. -/
inductive RunError
  | invalidRange
  | syncFailure
  | scoringFailure
  | saveFailure
deriving DecidableEq, Repr

/-- Observable persistent state touched by one `reconcile` call:
the run-log row it creates and the reconciliation rows it saves. -/
structure DB where
  runLog : Option RunLog
  reconciliations : List MatchResult
deriving DecidableEq, Repr

/-- Environment of one `reconcile` call: the synced record stores that
`getLocalOrders` / `getLocalPayments` read from, plus injected failure
points modelling thrown exceptions (`syncFails`: a platform sync
rejects; `scoreFailIndex i`: an exception is thrown while processing
the `i`-th Shopify order of the primary loop; `saveFailIndex k`: the
save of the `k`-th outcome throws). -/
structure Env where
  shopifyOrders : List ShopifyOrder
  razorpayPayments : List RazorpayPayment
  easyecomOrders : List EasyecomOrder
  syncFails : Bool
  scoreFailIndex : Option ℕ
  saveFailIndex : Option ℕ

/-- `getLocalOrders(startDate, endDate)`: the stored Shopify orders with
`createdAt` in the closed range. -/
def loadedShopify (env : Env) (startDate endDate : ℚ) : List ShopifyOrder :=
  env.shopifyOrders.filter fun o =>
    decide (startDate ≤ o.createdAt ∧ o.createdAt ≤ endDate)

/-- `getLocalPayments(startDate, endDate)` for Razorpay. -/
def loadedRazorpay (env : Env) (startDate endDate : ℚ) : List RazorpayPayment :=
  env.razorpayPayments.filter fun p =>
    decide (startDate ≤ p.createdAt ∧ p.createdAt ≤ endDate)

/-- `getLocalOrders(startDate, endDate)` for Easyecom. -/
def loadedEasyecom (env : Env) (startDate endDate : ℚ) : List EasyecomOrder :=
  env.easyecomOrders.filter fun e =>
    decide (startDate ≤ e.createdAt ∧ e.createdAt ≤ endDate)

/-- The save loop and log finalisation of `reconcile`: outcomes are
saved one at a time; if the `k`-th save throws, the first `k` outcomes
stay persisted and the catch block marks the log FAILED (counts stay at
their creation value 0); otherwise the log is updated to COMPLETED with
the totals. -/
def persistAndFinalize (env : Env) (r : List MatchResult × ℕ × ℕ) :
    Option RunError × DB :=
  match env.saveFailIndex with
  | some k =>
    if k < r.1.length then
      (some .saveFailure, ⟨some ⟨.FAILED, 0, 0, 0⟩, r.1.take k⟩)
    else
      (none, ⟨some ⟨.COMPLETED, r.1.length, r.2.1, r.2.2⟩, r.1⟩)
  | none => (none, ⟨some ⟨.COMPLETED, r.1.length, r.2.1, r.2.2⟩, r.1⟩)

/-- `ReconciliationService.reconcile(startDate, endDate)`.  The code
performs no validation of the date range: it creates the RUNNING log
row, syncs the three platforms (concurrently), loads the local records
of the window, runs the matching phase, saves every outcome, and
finalises the log; any exception reaches the catch block, which only
marks the log FAILED. -/
def reconcile (startDate endDate : ℚ) (env : Env) : Option RunError × DB :=
  if env.syncFails then
    (some .syncFailure, ⟨some ⟨.FAILED, 0, 0, 0⟩, []⟩)
  else
    let orders := loadedShopify env startDate endDate
    let ps := loadedRazorpay env startDate endDate
    let es := loadedEasyecom env startDate endDate
    match env.scoreFailIndex with
    | some i =>
      if i < orders.length then
        (some .scoringFailure, ⟨some ⟨.FAILED, 0, 0, 0⟩, []⟩)
      else persistAndFinalize env (reconcileMatches orders ps es)
    | none => persistAndFinalize env (reconcileMatches orders ps es)

/-! ### Compositional descriptions of the matching phase -/

/-- The outcomes produced by the primary loop: one `findMatches` result
per loaded Shopify order, each computed against the full candidate
pools. -/
def primaryOutcomes (orders : List ShopifyOrder) (ps : List RazorpayPayment)
    (es : List EasyecomOrder) : List MatchResult :=
  orders.map fun o => findMatches o ps es

/-- Razorpay payment ids referenced by some primary outcome. -/
def claimedRazorpayIds (orders : List ShopifyOrder) (ps : List RazorpayPayment)
    (es : List EasyecomOrder) : List String :=
  (primaryOutcomes orders ps es).filterMap (·.razorpayPaymentId)

/-- Easyecom order ids referenced by some primary outcome. -/
def claimedEasyecomIds (orders : List ShopifyOrder) (ps : List RazorpayPayment)
    (es : List EasyecomOrder) : List String :=
  (primaryOutcomes orders ps es).filterMap (·.easyecomOrderId)

/-- Orphan outcomes synthesized for Razorpay payments referenced by no
primary outcome. -/
def razorpayOrphans (orders : List ShopifyOrder) (ps : List RazorpayPayment)
    (es : List EasyecomOrder) : List MatchResult :=
  (ps.filter fun p => decide (p.id ∉ claimedRazorpayIds orders ps es)).map
    razorpayOrphan

/-- Orphan outcomes synthesized for Easyecom orders referenced by no
primary outcome. -/
def easyecomOrphans (orders : List ShopifyOrder) (ps : List RazorpayPayment)
    (es : List EasyecomOrder) : List MatchResult :=
  (es.filter fun e => decide (e.id ∉ claimedEasyecomIds orders ps es)).map
    easyecomOrphan

/-! ### Helper lemmas -/

lemma foldl_primary_eq {α : Type} (f : α → MatchResult) (l : List α)
    (acc : List MatchResult) (m u : ℕ) :
    l.foldl
      (fun acc' o =>
        if (f o).status = ReconciliationStatus.MATCHED then
          (acc'.1 ++ [f o], acc'.2.1 + 1, acc'.2.2)
        else (acc'.1 ++ [f o], acc'.2.1, acc'.2.2 + 1))
      (acc, m, u)
    = (acc ++ l.map f,
       m + (l.map f).countP (fun r => decide (r.status = ReconciliationStatus.MATCHED)),
       u + (l.map f).countP (fun r => !decide (r.status = ReconciliationStatus.MATCHED))) := by
  induction l generalizing acc m u with
  | nil => simp
  | cons x xs ih =>
    simp only [List.foldl_cons, List.map_cons, List.countP_cons]
    by_cases h : (f x).status = ReconciliationStatus.MATCHED
    · rw [if_pos h, ih]
      simp only [Prod.mk.injEq, List.append_assoc, List.singleton_append]
      refine ⟨trivial, ?_, ?_⟩ <;> simp [h] <;> omega
    · rw [if_neg h, ih]
      simp only [Prod.mk.injEq, List.append_assoc, List.singleton_append]
      refine ⟨trivial, ?_, ?_⟩ <;> simp [h] <;> omega

lemma foldl_orphan_eq {α : Type} (mk : α → MatchResult) (P : α → Prop)
    [DecidablePred P] (l : List α) (acc : List MatchResult) (u : ℕ) :
    l.foldl
      (fun acc' x => if P x then acc' else (acc'.1 ++ [mk x], acc'.2 + 1))
      (acc, u)
    = (acc ++ (l.filter fun x => decide ¬ P x).map mk,
       u + (l.filter fun x => decide ¬ P x).length) := by
  induction l generalizing acc u with
  | nil => simp
  | cons x xs ih =>
    simp only [List.foldl_cons, List.filter_cons]
    by_cases h : P x
    · simp [h, ih]
    · simp [h, ih, List.append_assoc]
      omega

lemma filterMap_map_none {α β γ : Type} (g : β → Option γ) (h : α → β)
    (hg : ∀ a, g (h a) = none) (l : List α) :
    (l.map h).filterMap g = [] := by
  induction l with
  | nil => rfl
  | cons x xs ih => simp [List.filterMap_cons, hg x, ih]

lemma selectBest_foldl_fst_none {α : Type} (score : α → ℚ) (l : List α)
    (b : Option α × ℚ) :
    (l.foldl
      (fun best c =>
        let confidence := score c
        if best.2 < confidence then (some c, confidence) else best)
      b).1 = none →
    l.foldl
      (fun best c =>
        let confidence := score c
        if best.2 < confidence then (some c, confidence) else best)
      b = b := by
  induction l generalizing b with
  | nil => intro _; rfl
  | cons x xs ih =>
    intro h
    simp only [List.foldl_cons] at h ⊢
    by_cases hx : b.2 < score x
    · exfalso
      simp only [hx, if_true] at h
      have := ih (some x, score x) h
      rw [this] at h
      exact Option.noConfusion h
    · simp only [hx, if_false] at h ⊢
      exact ih b h

/-- If the selection loop ends with no best match, it returns exactly
`(none, 0)`. -/
lemma selectBest_fst_none {α : Type} (score : α → ℚ) (l : List α)
    (h : (selectBest score l).1 = none) : selectBest score l = (none, 0) :=
  selectBest_foldl_fst_none score l (none, 0) h

/-- The matching phase decomposes into the per-primary outcomes
followed by the Razorpay and Easyecom orphan outcomes, with the two
counters counting MATCHED / non-MATCHED as the loops do. -/
lemma reconcileMatches_eq (orders : List ShopifyOrder)
    (ps : List RazorpayPayment) (es : List EasyecomOrder) :
    reconcileMatches orders ps es =
      (primaryOutcomes orders ps es ++ razorpayOrphans orders ps es ++
         easyecomOrphans orders ps es,
       (primaryOutcomes orders ps es).countP
         (fun r => decide (r.status = ReconciliationStatus.MATCHED)),
       (primaryOutcomes orders ps es).countP
           (fun r => !decide (r.status = ReconciliationStatus.MATCHED)) +
         (razorpayOrphans orders ps es).length +
         (easyecomOrphans orders ps es).length) := by
  simp only [reconcileMatches]
  rw [foldl_primary_eq (fun o => findMatches o ps es) orders [] 0 0]
  simp only [List.nil_append, Nat.zero_add]
  rw [foldl_orphan_eq razorpayOrphan
      (fun p => p.id ∈ (orders.map fun o => findMatches o ps es).filterMap
        (·.razorpayPaymentId)) ps]
  have hmapE :
      ((ps.filter fun p =>
          decide ¬ p.id ∈ (orders.map fun o => findMatches o ps es).filterMap
            (·.razorpayPaymentId)).map razorpayOrphan).filterMap
        (·.easyecomOrderId) = [] :=
    filterMap_map_none _ _ (fun _ => rfl) _
  rw [List.filterMap_append, hmapE, List.append_nil]
  rw [foldl_orphan_eq easyecomOrphan
      (fun e => e.id ∈ (orders.map fun o => findMatches o ps es).filterMap
        (·.easyecomOrderId)) es]
  simp only [primaryOutcomes, claimedRazorpayIds, claimedEasyecomIds,
    razorpayOrphans, easyecomOrphans, Prod.mk.injEq, List.append_assoc,
    List.length_map]

/-- If every candidate scores exactly 0, the selection loop never
updates its initial `(none, 0)`. -/
lemma selectBest_all_zero {α : Type} (score : α → ℚ) (l : List α)
    (h : ∀ c ∈ l, score c = 0) : selectBest score l = (none, 0) := by
  unfold selectBest
  induction l with
  | nil => rfl
  | cons x xs ih =>
    simp only [List.foldl_cons]
    have hx : score x = 0 := h x (List.mem_cons_self x xs)
    have : ¬ ((0 : ℚ) < score x) := by rw [hx]; exact lt_irrefl 0
    simp only [hx, this, if_false]
    exact ih fun c hc => h c (List.mem_cons_of_mem x hc)

lemma timeScore_eq (w win h : ℚ) (hwin : 0 < win) :
    (if h ≤ win then w * (1 - h / win) else 0) = w * max 0 (1 - h / win) := by
  by_cases hh : h ≤ win
  · rw [if_pos hh, max_eq_right]
    have : h / win ≤ 1 := (div_le_one hwin).mpr hh
    linarith
  · rw [if_neg hh]
    have h1 : 1 < h / win := (one_lt_div hwin).mpr (lt_of_not_le hh)
    rw [max_eq_left (by linarith), mul_zero]

/-! ### Claims -/

/-- C2: a primary outcome with matchConfidence ≥ 80 and
amountDifference ≥ 10 is classified DISCREPANCY, not MATCHED; the
cascade checks rule 1 (conf ≥ 80 ∧ diff < 1 → MATCHED), rule 2
(conf ≥ 50 ∧ diff < 10 → PARTIAL_MATCH), rule 3 (diff ≥ 10 →
DISCREPANCY), then UNMATCHED, first match wins. -/
theorem claim_C2_high_confidence_discrepancy (conf diff : ℚ)
    (h80 : 80 ≤ conf) (h10 : 10 ≤ diff) :
    classifyStatus conf diff = ReconciliationStatus.DISCREPANCY ∧
    classifyStatus conf diff ≠ ReconciliationStatus.MATCHED ∧
    (∀ c d : ℚ,
      (c ≥ 80 ∧ d < 1 → classifyStatus c d = ReconciliationStatus.MATCHED) ∧
      (¬(c ≥ 80 ∧ d < 1) → c ≥ 50 ∧ d < 10 →
        classifyStatus c d = ReconciliationStatus.PARTIAL_MATCH) ∧
      (¬(c ≥ 80 ∧ d < 1) → ¬(c ≥ 50 ∧ d < 10) → d ≥ 10 →
        classifyStatus c d = ReconciliationStatus.DISCREPANCY) ∧
      (¬(c ≥ 80 ∧ d < 1) → ¬(c ≥ 50 ∧ d < 10) → ¬(d ≥ 10) →
        classifyStatus c d = ReconciliationStatus.UNMATCHED)) := by
  have h1 : ¬(conf ≥ 80 ∧ diff < 1) := fun ⟨_, hd⟩ => by linarith
  have h2 : ¬(conf ≥ 50 ∧ diff < 10) := fun ⟨_, hd⟩ => by linarith
  have hs : classifyStatus conf diff = ReconciliationStatus.DISCREPANCY := by
    unfold classifyStatus
    rw [if_neg h1, if_neg h2, if_pos (by linarith : diff ≥ 10)]
  refine ⟨hs, by rw [hs]; intro hc; exact ReconciliationStatus.noConfusion hc, ?_⟩
  intro c d
  unfold classifyStatus
  refine ⟨fun h => by rw [if_pos h],
          fun hn h => by rw [if_neg hn, if_pos h],
          fun hn1 hn2 h => by rw [if_neg hn1, if_neg hn2, if_pos h],
          fun hn1 hn2 hn3 => by rw [if_neg hn1, if_neg hn2, if_neg hn3]⟩

theorem claim_C2_high_confidence_discrepancy_witness :
    classifyStatus 80 10 = ReconciliationStatus.DISCREPANCY :=
  (claim_C2_high_confidence_discrepancy 80 10 (by decide) (by decide)).1

/-- C7: each pairwise score is the sum of the identity (resp.
reference) signal, the amount signal, and the linearly decayed temporal
signal `weight * max(0, 1 - hoursApart / windowHours)`, with weights
{identity 40, amount 40, temporal 20, 24h} for Razorpay and
{reference 60, amount 30, temporal 10, 48h} for Easyecom, and always
lies in [0, 100]. -/
theorem claim_C7_pairwise_score_formula (o : ShopifyOrder)
    (p : RazorpayPayment) (e : EasyecomOrder) :
    razorpayConfidence o p =
        (if truthy o.email ∧ truthy p.email ∧
            (o.email.getD "").toLower = (p.email.getD "").toLower then (40 : ℚ)
         else 0) +
        (if |o.totalPrice - p.amount| ≤ (0.01 : ℚ) * o.totalPrice then (40 : ℚ)
         else 0) +
        20 * max 0 (1 - |o.createdAt - p.createdAt| / (1000 * 60 * 60) / 24) ∧
    easyecomConfidence o e =
        (if truthy e.marketplaceOrderId ∧
            (e.marketplaceOrderId.getD "" = o.shopifyOrderId ∨
              e.marketplaceOrderId.getD "" = o.shopifyOrderNumber) then (60 : ℚ)
         else 0) +
        (if |o.totalPrice - e.totalAmount| ≤ (0.01 : ℚ) * o.totalPrice then (30 : ℚ)
         else 0) +
        10 * max 0 (1 - |o.createdAt - e.createdAt| / (1000 * 60 * 60) / 48) ∧
    0 ≤ razorpayConfidence o p ∧ razorpayConfidence o p ≤ 100 ∧
    0 ≤ easyecomConfidence o e ∧ easyecomConfidence o e ≤ 100 := by
  have hc : (0.01 : ℚ) = 1 / 100 := by norm_num
  have hrz : razorpayConfidence o p =
      (if truthy o.email ∧ truthy p.email ∧
          (o.email.getD "").toLower = (p.email.getD "").toLower then (40 : ℚ)
       else 0) +
      (if |o.totalPrice - p.amount| ≤ (0.01 : ℚ) * o.totalPrice then (40 : ℚ)
       else 0) +
      20 * max 0 (1 - |o.createdAt - p.createdAt| / (1000 * 60 * 60) / 24) := by
    simp only [razorpayConfidence]
    rw [timeScore_eq 20 24 _ (by norm_num)]
    have hamt : o.totalPrice * (1 / 100) = (0.01 : ℚ) * o.totalPrice := by
      rw [mul_comm, hc]
    rw [hamt]
    cases ho : o.email with
    | none => simp [truthy]
    | some a =>
      cases hp : p.email with
      | none => simp [truthy]
      | some b => simp [truthy]
  have hez : easyecomConfidence o e =
      (if truthy e.marketplaceOrderId ∧
          (e.marketplaceOrderId.getD "" = o.shopifyOrderId ∨
            e.marketplaceOrderId.getD "" = o.shopifyOrderNumber) then (60 : ℚ)
       else 0) +
      (if |o.totalPrice - e.totalAmount| ≤ (0.01 : ℚ) * o.totalPrice then (30 : ℚ)
       else 0) +
      10 * max 0 (1 - |o.createdAt - e.createdAt| / (1000 * 60 * 60) / 48) := by
    simp only [easyecomConfidence]
    rw [timeScore_eq 10 48 _ (by norm_num)]
    have hamt : o.totalPrice * (1 / 100) = (0.01 : ℚ) * o.totalPrice := by
      rw [mul_comm, hc]
    rw [hamt]
    cases he : e.marketplaceOrderId with
    | none => simp [truthy]
    | some m => simp [truthy]
  have hmax24 : (0 : ℚ) ≤ max 0 (1 - |o.createdAt - p.createdAt| / (1000 * 60 * 60) / 24) ∧
      max 0 (1 - |o.createdAt - p.createdAt| / (1000 * 60 * 60) / 24) ≤ 1 := by
    constructor
    · exact le_max_left 0 _
    · refine max_le (by norm_num) ?_
      have : (0 : ℚ) ≤ |o.createdAt - p.createdAt| / (1000 * 60 * 60) / 24 := by
        positivity
      linarith
  have hmax48 : (0 : ℚ) ≤ max 0 (1 - |o.createdAt - e.createdAt| / (1000 * 60 * 60) / 48) ∧
      max 0 (1 - |o.createdAt - e.createdAt| / (1000 * 60 * 60) / 48) ≤ 1 := by
    constructor
    · exact le_max_left 0 _
    · refine max_le (by norm_num) ?_
      have : (0 : ℚ) ≤ |o.createdAt - e.createdAt| / (1000 * 60 * 60) / 48 := by
        positivity
      linarith
  refine ⟨hrz, hez, ?_, ?_, ?_, ?_⟩
  · rw [hrz]; split_ifs <;> nlinarith [hmax24.1, hmax24.2]
  · rw [hrz]; split_ifs <;> nlinarith [hmax24.1, hmax24.2]
  · rw [hez]; split_ifs <;> nlinarith [hmax48.1, hmax48.2]
  · rw [hez]; split_ifs <;> nlinarith [hmax48.1, hmax48.2]

/-- C8: the best-match selector returns `(absent, 0)` whenever the
candidate list is empty or every candidate scores exactly 0 — a score
of exactly 0 is never selected, even for a unique candidate. -/
theorem claim_C8_zero_score_never_selected (o : ShopifyOrder)
    (ps : List RazorpayPayment) (es : List EasyecomOrder)
    (hps : ps = [] ∨ ∀ p ∈ ps, razorpayConfidence o p = 0)
    (hes : es = [] ∨ ∀ e ∈ es, easyecomConfidence o e = 0) :
    matchRazorpayPayment o ps = (none, 0) ∧
    matchEasyecomOrder o es = (none, 0) := by
  constructor
  · cases hps with
    | inl h => rw [h]; rfl
    | inr h => exact selectBest_all_zero _ _ h
  · cases hes with
    | inl h => rw [h]; rfl
    | inr h => exact selectBest_all_zero _ _ h

/-- Sample Shopify order used by concrete witnesses. -/
def sampleOrder : ShopifyOrder :=
  { id := "so_1", shopifyOrderId := "1001", shopifyOrderNumber := "#1001",
    email := none, totalPrice := 100, createdAt := 0 }

/-- Sample Razorpay payment scoring exactly 0 against `sampleOrder`
(no email, amount off by far more than 1%, 25 hours apart). -/
def samplePaymentZero : RazorpayPayment :=
  { id := "pay_1", email := none, amount := 200, createdAt := 90000000 }

/-- Sample Easyecom order scoring exactly 0 against `sampleOrder`
(no marketplace id, amount off by far more than 1%, 49 hours apart). -/
def sampleEasyZero : EasyecomOrder :=
  { id := "ee_1", marketplaceOrderId := none, totalAmount := 200,
    createdAt := 176400000 }

theorem claim_C8_zero_score_never_selected_witness :
    matchRazorpayPayment sampleOrder [samplePaymentZero] = (none, 0) ∧
    matchEasyecomOrder sampleOrder [sampleEasyZero] = (none, 0) :=
  claim_C8_zero_score_never_selected sampleOrder [samplePaymentZero]
    [sampleEasyZero]
    (Or.inr (by
      intro p hp
      rw [List.mem_singleton] at hp
      subst hp
      norm_num [razorpayConfidence, sampleOrder, samplePaymentZero]))
    (Or.inr (by
      intro e he
      rw [List.mem_singleton] at he
      subst he
      norm_num [easyecomConfidence, sampleOrder, sampleEasyZero]))

/-- C10: a primary record for which neither secondary source yields a
match produces an outcome with status UNMATCHED, matchConfidence 0,
both secondary ids absent, and amountDifference present and equal to 0
(computed over the singleton amount list) — never DISCREPANCY, and with
a present, not absent, amountDifference. -/
theorem claim_C10_no_match_primary_outcome (o : ShopifyOrder)
    (ps : List RazorpayPayment) (es : List EasyecomOrder)
    (hr : (matchRazorpayPayment o ps).1 = none)
    (he : (matchEasyecomOrder o es).1 = none) :
    findMatches o ps es =
      { shopifyOrderId := some o.id, razorpayPaymentId := none,
        easyecomOrderId := none, matchConfidence := 0,
        status := ReconciliationStatus.UNMATCHED,
        amountDifference := some 0,
        discrepancyNotes := some "Could not find confident matches" } := by
  have hr' : matchRazorpayPayment o ps = (none, 0) :=
    selectBest_fst_none (razorpayConfidence o) ps hr
  have he' : matchEasyecomOrder o es = (none, 0) :=
    selectBest_fst_none (easyecomConfidence o) es he
  simp only [findMatches, hr', he']
  norm_num [listMax, listMin, classifyStatus, classifyNotes]

theorem claim_C10_no_match_primary_outcome_witness :
    findMatches sampleOrder [] [] =
      { shopifyOrderId := some "so_1", razorpayPaymentId := none,
        easyecomOrderId := none, matchConfidence := 0,
        status := ReconciliationStatus.UNMATCHED,
        amountDifference := some 0,
        discrepancyNotes := some "Could not find confident matches" } :=
  claim_C10_no_match_primary_outcome sampleOrder [] [] rfl rfl

/-- On the happy path (no injected failure), `reconcile` returns no
error, saves every outcome of the matching phase, and finalises the log
with the loop totals. -/
lemma reconcile_ok (s e : ℚ) (env : Env) (hsync : env.syncFails = false)
    (hscore : env.scoreFailIndex = none) (hsave : env.saveFailIndex = none) :
    reconcile s e env =
      (none,
       ⟨some ⟨RunStatus.COMPLETED,
          (reconcileMatches (loadedShopify env s e) (loadedRazorpay env s e)
            (loadedEasyecom env s e)).1.length,
          (reconcileMatches (loadedShopify env s e) (loadedRazorpay env s e)
            (loadedEasyecom env s e)).2.1,
          (reconcileMatches (loadedShopify env s e) (loadedRazorpay env s e)
            (loadedEasyecom env s e)).2.2⟩,
        (reconcileMatches (loadedShopify env s e) (loadedRazorpay env s e)
          (loadedEasyecom env s e)).1⟩) := by
  unfold reconcile persistAndFinalize
  rw [hsync, hscore, hsave]
  simp

/-- Every `reconcile` call either completes (no error, COMPLETED log)
or fails with a non-`invalidRange` error and a FAILED log; the log row
is created in every case. -/
lemma reconcile_shape (s e : ℚ) (env : Env) :
    ((reconcile s e env).1 = none ∧
      ∃ log, (reconcile s e env).2.runLog = some log ∧
        log.status = RunStatus.COMPLETED) ∨
    ((reconcile s e env).1 ≠ some RunError.invalidRange ∧
      (reconcile s e env).2.runLog = some ⟨RunStatus.FAILED, 0, 0, 0⟩) := by
  unfold reconcile persistAndFinalize
  by_cases hs : env.syncFails
  · right
    simp [hs]
  · simp only [Bool.not_eq_true] at hs
    rw [hs]
    simp only [Bool.false_eq_true, if_false]
    cases hsc : env.scoreFailIndex with
    | some i =>
      by_cases hi : i < (loadedShopify env s e).length
      · right
        simp [hi]
      · simp only [hi, if_false]
        cases hsv : env.saveFailIndex with
        | some k =>
          by_cases hk : k < (reconcileMatches (loadedShopify env s e)
              (loadedRazorpay env s e) (loadedEasyecom env s e)).1.length
          · right; simp [hk]
          · left; simp [hk]
        | none => left; simp
    | none =>
      cases hsv : env.saveFailIndex with
      | some k =>
        by_cases hk : k < (reconcileMatches (loadedShopify env s e)
            (loadedRazorpay env s e) (loadedEasyecom env s e)).1.length
        · right; simp [hk]
        · left; simp [hk]
      | none => left; simp

/-- Membership in the list of claimed ids, phrased as "referenced by
some primary outcome". -/
lemma filter_not_mem_filterMap {α : Type} (get : MatchResult → Option String)
    (key : α → String) (ms : List MatchResult) (l : List α) :
    (l.filter fun x => decide (key x ∉ ms.filterMap get)) =
      (l.filter fun x => decide (¬ ∃ m ∈ ms, get m = some (key x))) := by
  apply List.filter_congr
  intro x _
  simp [List.mem_filterMap]

/-- C6: conservation — the run produces exactly
`P + |unclaimed(S1)| + |unclaimed(S2)|` outcomes, where unclaimed means
referenced by no primary outcome, and records that count as
`recordsProcessed` in the finalized run log. -/
theorem claim_C6_conservation (s e : ℚ) (env : Env)
    (hsync : env.syncFails = false) (hscore : env.scoreFailIndex = none)
    (hsave : env.saveFailIndex = none) :
    (reconcile s e env).2.reconciliations.length =
      (loadedShopify env s e).length +
        ((loadedRazorpay env s e).filter fun p =>
          decide (¬ ∃ m ∈ primaryOutcomes (loadedShopify env s e)
            (loadedRazorpay env s e) (loadedEasyecom env s e),
            m.razorpayPaymentId = some p.id)).length +
        ((loadedEasyecom env s e).filter fun q =>
          decide (¬ ∃ m ∈ primaryOutcomes (loadedShopify env s e)
            (loadedRazorpay env s e) (loadedEasyecom env s e),
            m.easyecomOrderId = some q.id)).length ∧
    ∃ log, (reconcile s e env).2.runLog = some log ∧
      log.recordsProcessed = (reconcile s e env).2.reconciliations.length := by
  rw [reconcile_ok s e env hsync hscore hsave]
  have hdec := reconcileMatches_eq (loadedShopify env s e)
    (loadedRazorpay env s e) (loadedEasyecom env s e)
  constructor
  · rw [hdec]
    simp only [List.length_append, razorpayOrphans, easyecomOrphans,
      claimedRazorpayIds, claimedEasyecomIds, List.length_map]
    rw [filter_not_mem_filterMap (α := RazorpayPayment) (·.razorpayPaymentId)
        (fun p => p.id),
      filter_not_mem_filterMap (α := EasyecomOrder) (·.easyecomOrderId)
        (fun q => q.id)]
    simp only [primaryOutcomes, List.length_map]
  · exact ⟨_, rfl, rfl⟩

theorem claim_C6_conservation_witness :
    (reconcile 0 1
        (⟨[], [], [], false, none, none⟩ : Env)).2.reconciliations.length =
      (loadedShopify ⟨[], [], [], false, none, none⟩ 0 1).length +
        ((loadedRazorpay ⟨[], [], [], false, none, none⟩ 0 1).filter fun p =>
          decide (¬ ∃ m ∈ primaryOutcomes
            (loadedShopify ⟨[], [], [], false, none, none⟩ 0 1)
            (loadedRazorpay ⟨[], [], [], false, none, none⟩ 0 1)
            (loadedEasyecom ⟨[], [], [], false, none, none⟩ 0 1),
            m.razorpayPaymentId = some p.id)).length +
        ((loadedEasyecom ⟨[], [], [], false, none, none⟩ 0 1).filter fun q =>
          decide (¬ ∃ m ∈ primaryOutcomes
            (loadedShopify ⟨[], [], [], false, none, none⟩ 0 1)
            (loadedRazorpay ⟨[], [], [], false, none, none⟩ 0 1)
            (loadedEasyecom ⟨[], [], [], false, none, none⟩ 0 1),
            m.easyecomOrderId = some q.id)).length ∧
    ∃ log, (reconcile 0 1
        (⟨[], [], [], false, none, none⟩ : Env)).2.runLog = some log ∧
      log.recordsProcessed =
        (reconcile 0 1
          (⟨[], [], [], false, none, none⟩ : Env)).2.reconciliations.length :=
  claim_C6_conservation 0 1 ⟨[], [], [], false, none, none⟩ rfl rfl rfl

lemma countP_orphans (ps : List RazorpayPayment) (es : List EasyecomOrder)
    (orders : List ShopifyOrder) :
    ((razorpayOrphans orders ps es).countP
        (fun m => decide (m.status = ReconciliationStatus.MATCHED)) = 0 ∧
      (easyecomOrphans orders ps es).countP
        (fun m => decide (m.status = ReconciliationStatus.MATCHED)) = 0) ∧
    ((razorpayOrphans orders ps es).countP
        (fun m => !decide (m.status = ReconciliationStatus.MATCHED)) =
        (razorpayOrphans orders ps es).length ∧
      (easyecomOrphans orders ps es).countP
        (fun m => !decide (m.status = ReconciliationStatus.MATCHED)) =
        (easyecomOrphans orders ps es).length) := by
  unfold razorpayOrphans easyecomOrphans
  refine ⟨⟨?_, ?_⟩, ?_, ?_⟩ <;>
    simp [List.countP_map, razorpayOrphan, easyecomOrphan, Function.comp_def,
      List.countP_true, List.length_map]

/-- C3 amended: the finalized run log records
`recordsMatched = count(status = MATCHED)` and
`recordsUnmatched = count(status ≠ MATCHED)` over all outcomes of the
run — PARTIAL_MATCH and DISCREPANCY outcomes are folded into the
unmatched counter. -/
theorem claim_C3_amended_run_counters (s e : ℚ) (env : Env)
    (hsync : env.syncFails = false) (hscore : env.scoreFailIndex = none)
    (hsave : env.saveFailIndex = none) :
    ∃ log, (reconcile s e env).2.runLog = some log ∧
      log.status = RunStatus.COMPLETED ∧
      log.recordsMatched = ((reconcile s e env).2.reconciliations.filter
        fun m => decide (m.status = ReconciliationStatus.MATCHED)).length ∧
      log.recordsUnmatched = ((reconcile s e env).2.reconciliations.filter
        fun m => decide (¬ m.status = ReconciliationStatus.MATCHED)).length := by
  rw [reconcile_ok s e env hsync hscore hsave]
  have hdec := reconcileMatches_eq (loadedShopify env s e)
    (loadedRazorpay env s e) (loadedEasyecom env s e)
  have hco := countP_orphans (loadedRazorpay env s e) (loadedEasyecom env s e)
    (loadedShopify env s e)
  refine ⟨_, rfl, rfl, ?_, ?_⟩
  · rw [hdec]
    simp only [← List.countP_eq_length_filter, List.countP_append,
      hco.1.1, hco.1.2]
    omega
  · rw [hdec]
    simp only [← List.countP_eq_length_filter, List.countP_append, decide_not,
      hco.2.1, hco.2.2]

theorem claim_C3_amended_run_counters_witness :
    ∃ log, (reconcile 0 1
        (⟨[], [], [], false, none, none⟩ : Env)).2.runLog = some log ∧
      log.status = RunStatus.COMPLETED ∧
      log.recordsMatched = (((reconcile 0 1
        (⟨[], [], [], false, none, none⟩ : Env)).2.reconciliations.filter
        fun m => decide (m.status = ReconciliationStatus.MATCHED)).length) ∧
      log.recordsUnmatched = (((reconcile 0 1
        (⟨[], [], [], false, none, none⟩ : Env)).2.reconciliations.filter
        fun m => decide (¬ m.status = ReconciliationStatus.MATCHED)).length) :=
  claim_C3_amended_run_counters 0 1 ⟨[], [], [], false, none, none⟩ rfl rfl rfl

/-- Shopify order producing a PARTIAL_MATCH against `paymentPartial`
(no email on either side, equal amounts, same instant: confidence
0 + 40 + 20 = 60, amount difference 0). -/
def orderPartial : ShopifyOrder :=
  { id := "so_p", shopifyOrderId := "3001", shopifyOrderNumber := "#3001",
    email := none, totalPrice := 100, createdAt := 0 }

/-- Payment matched by `orderPartial` with confidence 60. -/
def paymentPartial : RazorpayPayment :=
  { id := "pay_p", email := none, amount := 100, createdAt := 0 }

/-- Environment of one Shopify order and one Razorpay payment that
yield a single PARTIAL_MATCH primary outcome and no orphans. -/
def envPartial : Env :=
  { shopifyOrders := [orderPartial], razorpayPayments := [paymentPartial],
    easyecomOrders := [], syncFails := false, scoreFailIndex := none,
    saveFailIndex := none }

lemma findMatches_partial_match :
    findMatches orderPartial [paymentPartial] [] =
      { shopifyOrderId := some "so_p", razorpayPaymentId := some "pay_p",
        easyecomOrderId := none, matchConfidence := 60,
        status := ReconciliationStatus.PARTIAL_MATCH,
        amountDifference := some 0,
        discrepancyNotes := classifyNotes 60 0 } := by
  have hconf : razorpayConfidence orderPartial paymentPartial = 60 := by
    norm_num [razorpayConfidence, orderPartial, paymentPartial]
  have hsel : matchRazorpayPayment orderPartial [paymentPartial] =
      (some paymentPartial, 60) := by
    unfold matchRazorpayPayment selectBest
    simp only [List.foldl_cons, List.foldl_nil, hconf]
    norm_num
  have hsel2 : matchEasyecomOrder orderPartial [] = (none, 0) := rfl
  simp only [findMatches, hsel, hsel2]
  norm_num [listMax, listMin, classifyStatus, paymentPartial, orderPartial]

lemma envPartial_loaded :
    loadedShopify envPartial 0 1 = [orderPartial] ∧
    loadedRazorpay envPartial 0 1 = [paymentPartial] ∧
    loadedEasyecom envPartial 0 1 = [] := by
  refine ⟨?_, ?_, rfl⟩ <;>
    norm_num [loadedShopify, loadedRazorpay, envPartial, orderPartial,
      paymentPartial, List.filter_cons]

lemma envPartial_outcomes :
    reconcileMatches [orderPartial] [paymentPartial] [] =
      ([findMatches orderPartial [paymentPartial] []], 0, 1) := by
  rw [reconcileMatches_eq]
  have hrid : (findMatches orderPartial [paymentPartial] []).razorpayPaymentId
      = some "pay_p" := by rw [findMatches_partial_match]
  have hst : (findMatches orderPartial [paymentPartial] []).status
      = ReconciliationStatus.PARTIAL_MATCH := by rw [findMatches_partial_match]
  have hpid : paymentPartial.id = "pay_p" := rfl
  simp [primaryOutcomes, razorpayOrphans, easyecomOrphans, claimedRazorpayIds,
    claimedEasyecomIds, hrid, hst, hpid, List.filterMap_cons]

/-- C3 counterexample: a run whose single outcome is PARTIAL_MATCH ends
with `recordsUnmatched = 1` although no outcome has status UNMATCHED —
the run-log unmatched counter is not the count of UNMATCHED outcomes. -/
theorem claim_C3_counterexample :
    ∃ log, (reconcile 0 1 envPartial).2.runLog = some log ∧
      log.recordsUnmatched = 1 ∧
      ((reconcile 0 1 envPartial).2.reconciliations.filter
        fun m => decide (m.status = ReconciliationStatus.UNMATCHED)).length = 0 ∧
      ((reconcile 0 1 envPartial).2.reconciliations.map (·.status)) =
        [ReconciliationStatus.PARTIAL_MATCH] := by
  rw [reconcile_ok 0 1 envPartial rfl rfl rfl]
  rw [envPartial_loaded.1, envPartial_loaded.2.1, envPartial_loaded.2.2,
    envPartial_outcomes]
  refine ⟨_, rfl, rfl, ?_, ?_⟩
  · simp [findMatches_partial_match]
  · simp [findMatches_partial_match]

lemma envPartial_loaded_inverted :
    loadedShopify envPartial 5 3 = [] ∧ loadedRazorpay envPartial 5 3 = [] ∧
    loadedEasyecom envPartial 5 3 = [] := by
  refine ⟨?_, ?_, rfl⟩ <;>
    norm_num [loadedShopify, loadedRazorpay, envPartial, orderPartial,
      paymentPartial, List.filter_cons]

/-- C4 counterexample: `reconcile` called with startTime 5 > endTime 3
is not rejected: no error is returned (in particular no invalidRange
rejection), the run-log row is created, sync and loads are performed
over the inverted window, and the run completes with zero records. -/
theorem claim_C4_counterexample :
    (reconcile 5 3 envPartial).1 = none ∧
    (reconcile 5 3 envPartial).2.runLog =
      some ⟨RunStatus.COMPLETED, 0, 0, 0⟩ := by
  rw [reconcile_ok 5 3 envPartial rfl rfl rfl]
  rw [envPartial_loaded_inverted.1, envPartial_loaded_inverted.2.1,
    envPartial_loaded_inverted.2.2]
  exact ⟨rfl, rfl⟩

/-- C4 amended: `reconcile` performs no validation of the date range:
no call is ever rejected with invalidRange, the run-log row is created
unconditionally before any range consideration, and when the
collaborators do not fail a call with any startTime/endTime (inverted
ranges included) completes normally over the records of the (then
empty) window. -/
theorem claim_C4_amended_no_range_validation (s e : ℚ) (env : Env) :
    (reconcile s e env).1 ≠ some RunError.invalidRange ∧
    (∃ log, (reconcile s e env).2.runLog = some log) ∧
    (env.syncFails = false → env.scoreFailIndex = none →
      env.saveFailIndex = none →
      (reconcile s e env).1 = none ∧
      ∃ log, (reconcile s e env).2.runLog = some log ∧
        log.status = RunStatus.COMPLETED) := by
  refine ⟨?_, ?_, ?_⟩
  · rcases reconcile_shape s e env with ⟨h1, _⟩ | ⟨h1, _⟩
    · rw [h1]; exact fun h => Option.noConfusion h
    · exact h1
  · rcases reconcile_shape s e env with ⟨_, log, h2, _⟩ | ⟨_, h2⟩
    · exact ⟨log, h2⟩
    · exact ⟨_, h2⟩
  · intro h1 h2 h3
    rw [reconcile_ok s e env h1 h2 h3]
    exact ⟨rfl, _, rfl, rfl⟩

theorem claim_C4_amended_no_range_validation_witness :
    (reconcile 5 3 envPartial).1 ≠ some RunError.invalidRange ∧
    ((reconcile 5 3 envPartial).1 = none ∧
      ∃ log, (reconcile 5 3 envPartial).2.runLog = some log ∧
        log.status = RunStatus.COMPLETED) :=
  ⟨(claim_C4_amended_no_range_validation 5 3 envPartial).1,
   (claim_C4_amended_no_range_validation 5 3 envPartial).2.2 rfl rfl rfl⟩

/-- Payments used in the save-failure scenario. -/
def paymentS1 : RazorpayPayment :=
  { id := "pay_s1", email := none, amount := 10, createdAt := 0 }

/-- Second payment of the save-failure scenario. -/
def paymentS2 : RazorpayPayment :=
  { id := "pay_s2", email := none, amount := 20, createdAt := 0 }

/-- Environment with no primaries and two payments whose save of the
second outcome (index 1) throws. -/
def envSaveFail : Env :=
  { shopifyOrders := [], razorpayPayments := [paymentS1, paymentS2],
    easyecomOrders := [], syncFails := false, scoreFailIndex := none,
    saveFailIndex := some 1 }

/-- Environment with one primary whose processing (index 0) throws. -/
def envScoreFail : Env :=
  { shopifyOrders := [orderPartial], razorpayPayments := [],
    easyecomOrders := [], syncFails := false, scoreFailIndex := some 0,
    saveFailIndex := none }

lemma envSaveFail_loaded :
    loadedShopify envSaveFail 0 1 = [] ∧
    loadedRazorpay envSaveFail 0 1 = [paymentS1, paymentS2] ∧
    loadedEasyecom envSaveFail 0 1 = [] := by
  refine ⟨rfl, ?_, rfl⟩
  norm_num [loadedRazorpay, envSaveFail, paymentS1, paymentS2,
    List.filter_cons]

lemma envSaveFail_matches :
    reconcileMatches [] [paymentS1, paymentS2] [] =
      ([razorpayOrphan paymentS1, razorpayOrphan paymentS2], 0, 2) := rfl

/-- C5 amended: an error thrown during the primary scoring /
classification loop aborts the run before any outcome is saved (no
outcome persisted, log FAILED); an error thrown while saving the k-th
outcome leaves the k outcomes saved before it persisted — persistence
is per-record, not all-or-nothing — with the log FAILED. -/
theorem claim_C5_amended_failure_persistence (s e : ℚ) (env : Env)
    (hsync : env.syncFails = false) :
    (∀ i, env.scoreFailIndex = some i → i < (loadedShopify env s e).length →
      (reconcile s e env).1 = some RunError.scoringFailure ∧
      (reconcile s e env).2.reconciliations = [] ∧
      (reconcile s e env).2.runLog = some ⟨RunStatus.FAILED, 0, 0, 0⟩) ∧
    (∀ k, env.scoreFailIndex = none → env.saveFailIndex = some k →
      k < (reconcileMatches (loadedShopify env s e) (loadedRazorpay env s e)
        (loadedEasyecom env s e)).1.length →
      (reconcile s e env).1 = some RunError.saveFailure ∧
      (reconcile s e env).2.reconciliations =
        (reconcileMatches (loadedShopify env s e) (loadedRazorpay env s e)
          (loadedEasyecom env s e)).1.take k ∧
      (reconcile s e env).2.runLog = some ⟨RunStatus.FAILED, 0, 0, 0⟩) := by
  constructor
  · intro i hi hlen
    unfold reconcile
    rw [hsync, hi]
    simp [hlen]
  · intro k hsc hsv hk
    unfold reconcile persistAndFinalize
    rw [hsync, hsc, hsv]
    simp [hk]

theorem claim_C5_amended_failure_persistence_witness :
    ((reconcile 0 1 envScoreFail).1 = some RunError.scoringFailure ∧
      (reconcile 0 1 envScoreFail).2.reconciliations = [] ∧
      (reconcile 0 1 envScoreFail).2.runLog =
        some ⟨RunStatus.FAILED, 0, 0, 0⟩) ∧
    ((reconcile 0 1 envSaveFail).1 = some RunError.saveFailure ∧
      (reconcile 0 1 envSaveFail).2.reconciliations =
        (reconcileMatches (loadedShopify envSaveFail 0 1)
          (loadedRazorpay envSaveFail 0 1)
          (loadedEasyecom envSaveFail 0 1)).1.take 1 ∧
      (reconcile 0 1 envSaveFail).2.runLog =
        some ⟨RunStatus.FAILED, 0, 0, 0⟩) :=
  ⟨(claim_C5_amended_failure_persistence 0 1 envScoreFail rfl).1 0 rfl
      (by norm_num [loadedShopify, envScoreFail, orderPartial,
        List.filter_cons]),
   (claim_C5_amended_failure_persistence 0 1 envSaveFail rfl).2 1 rfl rfl
      (by rw [envSaveFail_loaded.1, envSaveFail_loaded.2.1,
            envSaveFail_loaded.2.2, envSaveFail_matches]
          norm_num)⟩

/-- C5 counterexample: a run that fails while saving its second outcome
is marked FAILED but leaves its first outcome persisted — a FAILED run
is not all-or-nothing, and the persisted outcome is what reports read. -/
theorem claim_C5_counterexample :
    (reconcile 0 1 envSaveFail).1 = some RunError.saveFailure ∧
    (reconcile 0 1 envSaveFail).2.runLog =
      some ⟨RunStatus.FAILED, 0, 0, 0⟩ ∧
    (reconcile 0 1 envSaveFail).2.reconciliations =
      [razorpayOrphan paymentS1] := by
  have hsync : envSaveFail.syncFails = false := rfl
  have hsc : envSaveFail.scoreFailIndex = none := rfl
  have hsv : envSaveFail.saveFailIndex = some 1 := rfl
  simp only [reconcile, persistAndFinalize, hsync, hsc, hsv,
    envSaveFail_loaded.1, envSaveFail_loaded.2.1, envSaveFail_loaded.2.2,
    envSaveFail_matches]
  norm_num [List.take]

/-- First of two Shopify orders contesting the same payment. -/
def orderA : ShopifyOrder :=
  { id := "so_a", shopifyOrderId := "4001", shopifyOrderNumber := "#4001",
    email := none, totalPrice := 100, createdAt := 0 }

/-- Second of two Shopify orders contesting the same payment. -/
def orderB : ShopifyOrder :=
  { id := "so_b", shopifyOrderId := "4002", shopifyOrderNumber := "#4002",
    email := none, totalPrice := 100, createdAt := 0 }

/-- Payment scored > 0 by both `orderA` and `orderB`. -/
def paymentShared : RazorpayPayment :=
  { id := "pay_shared", email := none, amount := 100, createdAt := 0 }

/-- Environment in which two primaries contest one payment. -/
def envContested : Env :=
  { shopifyOrders := [orderA, orderB], razorpayPayments := [paymentShared],
    easyecomOrders := [], syncFails := false, scoreFailIndex := none,
    saveFailIndex := none }

lemma findMatches_contested (o : ShopifyOrder)
    (ho : razorpayConfidence o paymentShared = 60) :
    (findMatches o [paymentShared] []).razorpayPaymentId =
      some "pay_shared" := by
  have hsel : matchRazorpayPayment o [paymentShared] =
      (some paymentShared, 60) := by
    unfold matchRazorpayPayment selectBest
    simp only [List.foldl_cons, List.foldl_nil, ho]
    norm_num
  simp only [findMatches, hsel]
  rfl

lemma envContested_loaded :
    loadedShopify envContested 0 1 = [orderA, orderB] ∧
    loadedRazorpay envContested 0 1 = [paymentShared] ∧
    loadedEasyecom envContested 0 1 = [] := by
  refine ⟨?_, ?_, rfl⟩ <;>
    norm_num [loadedShopify, loadedRazorpay, envContested, orderA, orderB,
      paymentShared, List.filter_cons]

/-- C1 counterexample: two primaries each score 60 > 0 against the one
payment and the run produces two outcomes, **both** referencing that
payment's id — not "exactly one claims it, the later one absent". -/
theorem claim_C1_counterexample :
    0 < razorpayConfidence orderA paymentShared ∧
    0 < razorpayConfidence orderB paymentShared ∧
    ((reconcile 0 1 envContested).2.reconciliations.map
      (·.razorpayPaymentId)) = [some "pay_shared", some "pay_shared"] := by
  have hcA : razorpayConfidence orderA paymentShared = 60 := by
    norm_num [razorpayConfidence, orderA, paymentShared]
  have hcB : razorpayConfidence orderB paymentShared = 60 := by
    norm_num [razorpayConfidence, orderB, paymentShared]
  refine ⟨by rw [hcA]; norm_num, by rw [hcB]; norm_num, ?_⟩
  rw [reconcile_ok 0 1 envContested rfl rfl rfl]
  rw [envContested_loaded.1, envContested_loaded.2.1,
    envContested_loaded.2.2, reconcileMatches_eq]
  have hA := findMatches_contested orderA hcA
  have hB := findMatches_contested orderB hcB
  have hpid : paymentShared.id = "pay_shared" := rfl
  simp [primaryOutcomes, razorpayOrphans, easyecomOrphans,
    claimedRazorpayIds, claimedEasyecomIds, hA, hB, hpid,
    List.filterMap_cons]

/-- C1 amended: the primary loop performs no claiming at all — each
primary's outcome is `findMatches` over the full candidate pools, so
every primary scoring > 0 against a contested secondary references it;
a secondary referenced by any primary outcome never appears among the
orphan outcomes appended after the loop. -/
theorem claim_C1_amended_no_exclusive_claiming (orders : List ShopifyOrder)
    (ps : List RazorpayPayment) (es : List EasyecomOrder) :
    ∃ orphans,
      (reconcileMatches orders ps es).1 =
        orders.map (fun o => findMatches o ps es) ++ orphans ∧
      (∀ p ∈ ps,
        (∃ m ∈ orders.map (fun o => findMatches o ps es),
          m.razorpayPaymentId = some p.id) →
        ∀ m ∈ orphans, m.razorpayPaymentId ≠ some p.id) ∧
      (∀ q ∈ es,
        (∃ m ∈ orders.map (fun o => findMatches o ps es),
          m.easyecomOrderId = some q.id) →
        ∀ m ∈ orphans, m.easyecomOrderId ≠ some q.id) := by
  refine ⟨razorpayOrphans orders ps es ++ easyecomOrphans orders ps es,
    ?_, ?_, ?_⟩
  · rw [reconcileMatches_eq]
    simp [primaryOutcomes]
  · intro p _ hex m hm hcontra
    rcases List.mem_append.mp hm with hmr | hme
    · rcases List.mem_map.mp hmr with ⟨p', hp', rfl⟩
      have hid : p'.id = p.id := by
        have : (razorpayOrphan p').razorpayPaymentId = some p'.id := rfl
        rw [this] at hcontra
        exact Option.some.inj hcontra
      have hunclaimed := (List.mem_filter.mp hp').2
      rw [decide_eq_true_eq] at hunclaimed
      apply hunclaimed
      rw [hid]
      unfold claimedRazorpayIds
      rcases hex with ⟨m, hmem, hmid⟩
      exact List.mem_filterMap.mpr ⟨m, by rwa [primaryOutcomes], hmid⟩
    · rcases List.mem_map.mp hme with ⟨q', _, rfl⟩
      exact Option.noConfusion hcontra
  · intro q _ hex m hm hcontra
    rcases List.mem_append.mp hm with hmr | hme
    · rcases List.mem_map.mp hmr with ⟨p', _, rfl⟩
      exact Option.noConfusion hcontra
    · rcases List.mem_map.mp hme with ⟨q', hq', rfl⟩
      have hid : q'.id = q.id := by
        have : (easyecomOrphan q').easyecomOrderId = some q'.id := rfl
        rw [this] at hcontra
        exact Option.some.inj hcontra
      have hunclaimed := (List.mem_filter.mp hq').2
      rw [decide_eq_true_eq] at hunclaimed
      apply hunclaimed
      rw [hid]
      unfold claimedEasyecomIds
      rcases hex with ⟨m, hmem, hmid⟩
      exact List.mem_filterMap.mpr ⟨m, by rwa [primaryOutcomes], hmid⟩

theorem claim_C1_amended_no_exclusive_claiming_witness :
    ∃ orphans,
      (reconcileMatches [orderA, orderB] [paymentShared] []).1 =
        [orderA, orderB].map (fun o => findMatches o [paymentShared] []) ++
          orphans ∧
      (∀ p ∈ [paymentShared],
        (∃ m ∈ [orderA, orderB].map (fun o => findMatches o [paymentShared] []),
          m.razorpayPaymentId = some p.id) →
        ∀ m ∈ orphans, m.razorpayPaymentId ≠ some p.id) ∧
      (∀ q ∈ ([] : List EasyecomOrder),
        (∃ m ∈ [orderA, orderB].map (fun o => findMatches o [paymentShared] []),
          m.easyecomOrderId = some q.id) →
        ∀ m ∈ orphans, m.easyecomOrderId ≠ some q.id) :=
  claim_C1_amended_no_exclusive_claiming [orderA, orderB] [paymentShared] []

/-- C9 amended: the run's outcome list is the primary outcomes followed
by exactly one orphan outcome per unreferenced secondary record of each
source, each orphan carrying status UNMATCHED, matchConfidence 0, an
absent amountDifference, and the fixed note
"No matching Shopify order found" — the same note for both sources (the
source is identified by which secondary-id field is set, not by the
note's text). -/
theorem claim_C9_amended_orphan_outcomes (orders : List ShopifyOrder)
    (ps : List RazorpayPayment) (es : List EasyecomOrder) :
    (reconcileMatches orders ps es).1 =
      primaryOutcomes orders ps es ++
        ((ps.filter fun p => decide (¬ ∃ m ∈ primaryOutcomes orders ps es,
            m.razorpayPaymentId = some p.id)).map
          fun p =>
            { shopifyOrderId := none, razorpayPaymentId := some p.id,
              easyecomOrderId := none, matchConfidence := 0,
              status := ReconciliationStatus.UNMATCHED,
              amountDifference := none,
              discrepancyNotes := some "No matching Shopify order found" }) ++
        ((es.filter fun q => decide (¬ ∃ m ∈ primaryOutcomes orders ps es,
            m.easyecomOrderId = some q.id)).map
          fun q =>
            { shopifyOrderId := none, razorpayPaymentId := none,
              easyecomOrderId := some q.id, matchConfidence := 0,
              status := ReconciliationStatus.UNMATCHED,
              amountDifference := none,
              discrepancyNotes := some "No matching Shopify order found" }) := by
  rw [reconcileMatches_eq]
  show primaryOutcomes orders ps es ++ razorpayOrphans orders ps es ++
      easyecomOrphans orders ps es = _
  unfold razorpayOrphans easyecomOrphans claimedRazorpayIds claimedEasyecomIds
  rw [filter_not_mem_filterMap (α := RazorpayPayment) (·.razorpayPaymentId)
      (fun p => p.id),
    filter_not_mem_filterMap (α := EasyecomOrder) (·.easyecomOrderId)
      (fun q => q.id)]
  rfl

/-- C9 counterexample: a Razorpay orphan and an Easyecom orphan carry
the identical note "No matching Shopify order found" — the note does
not identify which secondary source the orphan record came from. -/
theorem claim_C9_counterexample :
    ∃ m1 m2,
      (reconcileMatches [] [paymentPartial] [sampleEasyZero]).1 = [m1, m2] ∧
      m1.razorpayPaymentId = some "pay_p" ∧ m1.easyecomOrderId = none ∧
      m2.easyecomOrderId = some "ee_1" ∧ m2.razorpayPaymentId = none ∧
      m1.discrepancyNotes = some "No matching Shopify order found" ∧
      m2.discrepancyNotes = m1.discrepancyNotes :=
  ⟨razorpayOrphan paymentPartial, easyecomOrphan sampleEasyZero,
    rfl, rfl, rfl, rfl, rfl, rfl, rfl⟩

end CPReconcile
